import Mathlib

/-!
Verification of the cat size-detection core (`py_detect_sizecat`).

Shallow embedding of the measurement pipeline in
`backend_catshop/app/services/analysis_cat.py` and
`backend_catshop/app/services/detect_cat.py`, followed by theorems
settling the specification claims.

Modelling conventions:
* Python floats are modelled as exact rationals (`ℚ`).  The constant
  `math.pi` is embedded as the exact rational value of the IEEE-754
  double that Python uses.
* `round(x, 1)` / `round(x, 2)` are modelled as `round (10*x)/10` and
  `round (100*x)/100` with the Mathlib `round` (half away from the floor).
  The Python float `round` is half-to-even on binary doubles; the two only
  differ at exact decimal ties, which none of the concrete inputs in the
  claims hit.
* Machine integers are `ℤ` (Python ints are unbounded anyway).
-/

namespace CatShop

/-- Exact rational value of the IEEE-754 double `math.pi`
(= 884279719003555 / 2^48) used by `analysis_cat.py`. -/
def mathPi : ℚ := 884279719003555 / 281474976710656

/-- Python `round(x, 1)` on exact rationals. -/
def round1 (x : ℚ) : ℚ := (round (10 * x) : ℤ) / 10

/-- Python `round(x, 2)` on exact rationals. -/
def round2 (x : ℚ) : ℚ := (round (100 * x) : ℤ) / 100

/-- Constant `REAL_TORSO_HEIGHT_CM = 25` from `analysis_cat.py`. -/
def REAL_TORSO_HEIGHT_CM : ℚ := 25

/-- The `BREED_MODIFIER` dict of `analysis_cat.py`; `none` models an
absent key. -/
def BREED_MODIFIER (breed : String) : Option ℚ :=
  if breed = "maine_coon" then some 1.15
  else if breed = "ragdoll" then some 1.10
  else if breed = "british_shorthair" then some 1.05
  else if breed = "siamese" then some 0.95
  else if breed = "unknown" then some 1.0
  else none

/-- Function `estimate_posture(w, h)`: posture label and posture factor from the
aspect ratio `w / max(h, 1)`. -/
def estimate_posture (w h : ℚ) : String × ℚ :=
  let r := w / max h 1
  if r > 1.4 then ("lying", 0.85)
  else if r < 0.9 then ("sitting", 0.92)
  else ("standing", 1.0)

/-- The torso-ratio dict lookup inside `estimate_body_metrics`.  The dict
has exactly the keys "lying"/"sitting"/"standing", and the function is
only applied to outputs of `estimate_posture`. -/
def torso_ratio_of (posture : String) : ℚ :=
  if posture = "lying" then 0.55
  else if posture = "sitting" then 0.60
  else 0.65

/-- The record returned by `estimate_body_metrics`. -/
structure BodyMetrics where
  posture : String
  chest_cm : ℚ
  neck_cm : ℚ
  body_length_cm : ℚ
  confidence : ℚ
  quality_flag : String
deriving DecidableEq, Repr

/-- Body of `estimate_body_metrics` after the clamping of width and
height (`w = max(x2-x1, 1)`, `h = max(y2-y1, 1)`). -/
def body_metrics_core (w h : ℤ) : BodyMetrics :=
  let pf := estimate_posture (w : ℚ) (h : ℚ)
  let posture := pf.1
  let posture_factor := pf.2
  let tr := torso_ratio_of posture
  let effective_height : ℚ := (h : ℚ) * tr
  let pixel_to_cm : ℚ := REAL_TORSO_HEIGHT_CM / max effective_height 1
  let body_length_cm := round1 ((w : ℚ) * pixel_to_cm *
    (if posture = "lying" then 1.0 else 0.9))
  let chest_base := mathPi * ((w : ℚ) * pixel_to_cm) * 0.6
  let chest_cm := round1 (chest_base * posture_factor)
  let neck_cm := round1 (chest_cm * 0.62)
  let size_r : ℚ := min 1.0 (((w : ℚ) * (h : ℚ)) / (300 * 300))
  let aspect_score : ℚ :=
    if 0.6 < (w : ℚ) / (h : ℚ) ∧ (w : ℚ) / (h : ℚ) < 1.8 then 1.0 else 0.6
  let confidence := round2 (size_r * 0.6 + aspect_score * 0.4)
  let quality_flag :=
    if confidence > 0.75 then "good"
    else if confidence > 0.5 then "medium"
    else "poor"
  ⟨posture, chest_cm, neck_cm, body_length_cm, confidence, quality_flag⟩

/-- Function `estimate_body_metrics(bbox)` for `bbox = [x1, y1, x2, y2]`. -/
def estimate_body_metrics (x1 y1 x2 y2 : ℤ) : BodyMetrics :=
  body_metrics_core (max (x2 - x1) 1) (max (y2 - y1) 1)

/-- Function `estimate_weight(chest_cm, body_length_cm, breed)`. -/
def estimate_weight (chest_cm body_length_cm : ℚ) (breed : String) : ℚ :=
  let base_weight := (chest_cm ^ 2 * body_length_cm) / 3000
  round1 (base_weight * ((BREED_MODIFIER breed).getD 1.0))

/-- Function `determine_size(weight, chest_cm)`. -/
def determine_size (weight chest_cm : ℚ) : String :=
  if weight < 2.5 ∨ chest_cm < 24 then "XS"
  else if weight < 4 ∨ chest_cm < 32 then "S"
  else if weight < 6 ∨ chest_cm < 38 then "M"
  else if weight < 8.5 ∨ chest_cm < 45 then "L"
  else "XL"

/-- The dict returned by `analyze_cat`. -/
structure AnalysisResult where
  breed : String
  cat_color : Option String
  weight : ℚ
  size_category : String
  chest_cm : ℚ
  neck_cm : ℚ
  body_length_cm : ℚ
  posture : String
  confidence : ℚ
  quality_flag : String
  analysis_method : String
deriving DecidableEq, Repr

/-- Function `analyze_cat(image_path, bounding_box, cat_color)`:
main entry of `analysis_cat.py`.  `image_path` is unused by the body;
`breed` is hard-coded to "unknown". -/
def analyze_cat (_image_path : String) (x1 y1 x2 y2 : ℤ)
    (cat_color : Option String) : AnalysisResult :=
  let breed := "unknown"
  let metrics := estimate_body_metrics x1 y1 x2 y2
  let weight := estimate_weight metrics.chest_cm metrics.body_length_cm breed
  let size_category := determine_size weight metrics.chest_cm
  { breed := breed
    cat_color := cat_color
    weight := weight
    size_category := size_category
    chest_cm := metrics.chest_cm
    neck_cm := metrics.neck_cm
    body_length_cm := metrics.body_length_cm
    posture := metrics.posture
    confidence := metrics.confidence
    quality_flag := metrics.quality_flag
    analysis_method := "cv_heuristic_v4" }

/-! ## Detector (`detect_cat.py`) -/

/-- A decoded image, abstracted by the statistics the quality gate reads:
pixel dimensions, grayscale Laplacian variance (sharpness) and mean
grayscale intensity (brightness). -/
structure ImageStats where
  width : ℕ
  height : ℕ
  sharpness : ℚ
  brightness : ℚ
deriving DecidableEq, Repr

/-- The dict returned by `check_image_quality`. -/
structure QualityReport where
  is_valid : Bool
  reason : Option String
  sharpness : ℚ
  brightness : ℚ
deriving DecidableEq, Repr

/-- Modelled from the spec: the body of `CatDetector.check_image_quality`
is elided (`...`) in `detect_cat.py`, so the three checks are taken from
spec §4.1 — minimum resolution 100×100 px (reason "image too small"),
grayscale Laplacian variance at least 50 (reason "image too blurry"),
mean grayscale intensity within [30, 225] (reason "unsuitable
brightness") — evaluated in that order, short-circuiting on the first
failure. -/
def check_image_quality (img : ImageStats) : QualityReport :=
  if img.width < 100 ∨ img.height < 100 then
    ⟨false, some "image too small", img.sharpness, img.brightness⟩
  else if img.sharpness < 50 then
    ⟨false, some "image too blurry", img.sharpness, img.brightness⟩
  else if img.brightness < 30 ∨ img.brightness > 225 then
    ⟨false, some "unsuitable brightness", img.sharpness, img.brightness⟩
  else
    ⟨true, none, img.sharpness, img.brightness⟩

/-- One raw box of the YOLO output: predicted class id, confidence, and
`xyxy` corner coordinates. -/
structure RawBox where
  cls : ℕ
  conf : ℚ
  bx1 : ℚ
  by1 : ℚ
  bx2 : ℚ
  by2 : ℚ
deriving DecidableEq, Repr

/-- The `x/y/w/h` bbox dict built by `detect_cat`. -/
structure BBoxXYWH where
  x : ℤ
  y : ℤ
  w : ℤ
  h : ℤ
deriving DecidableEq, Repr

/-- Python `int(...)` on a float: truncation toward zero. -/
def pyInt (q : ℚ) : ℤ := if 0 ≤ q then ⌊q⌋ else ⌈q⌉

/-- One retained cat detection: confidence plus the integer bbox. -/
structure Detection where
  confidence : ℚ
  bbox : BBoxXYWH
deriving DecidableEq, Repr

/-- The dict entry appended for each box of class `cat_class_id`. -/
def toDetection (b : RawBox) : Detection :=
  ⟨b.conf, ⟨pyInt b.bx1, pyInt b.by1, pyInt (b.bx2 - b.bx1), pyInt (b.by2 - b.by1)⟩⟩

/-- Python `max(cat_detections, key=lambda x: x["confidence"])`: `max`
keeps the first element on ties; `none` on the empty list (the code
guards against that case first). -/
def best_by_conf : List Detection → Option Detection
  | [] => none
  | d :: ds => some (ds.foldl (fun b x => if x.confidence > b.confidence then x else b) d)

/-- Field `self.cat_class_id = 15`. -/
def cat_class_id : ℕ := 15

/-- Outcome of `self.model(image, ...)`: either a list of raw boxes or a
raised exception carrying a message. -/
inductive ModelOutcome where
  | ok (boxes : List RawBox)
  | raises (msg : String)
deriving DecidableEq, Repr

/-- The dict returned by `CatDetector.detect_cat`.  A key absent from the
returned Python dict is modelled as `none`. -/
structure DetectResult where
  is_cat : Bool
  confidence : ℚ
  bounding_box : Option BBoxXYWH
  quality_check : Option QualityReport
  total_cats_detected : Option ℕ
  error : Option String
deriving DecidableEq, Repr

/-- Error message for an image `cv2.imread` could not decode. -/
def ERR_LOAD : String := "ไม่สามารถโหลดภาพได้"

/-- Error message when no cat-class box survives the filter. -/
def ERR_NO_CAT : String := "ไม่พบแมวในภาพ กรุณาถ่ายภาพแมวให้ชัดเจน"

/-- Method `CatDetector.detect_cat(image_path, confidence_threshold)`.
`decoded` is the result of `cv2.imread` (`none` = undecodable image);
`model` is the YOLO invocation on the decoded image, which either
returns its boxes (already filtered by the engine to the confidence
threshold) or raises.  The surrounding `try/except` turns any raised
exception into the final error dict. -/
def detect_cat (decoded : Option ImageStats)
    (model : ImageStats → ModelOutcome) : DetectResult :=
  match decoded with
  | none => ⟨false, 0, none, none, none, some ERR_LOAD⟩
  | some image =>
    let quality := check_image_quality image
    if quality.is_valid = false then
      ⟨false, 0, none, some quality, none,
        some ("คุณภาพไม่ผ่านเกณฑ์: " ++ quality.reason.getD "")⟩
    else
      match model image with
      | .raises e => ⟨false, 0, none, none, none, some ("เกิดข้อผิดพลาด: " ++ e)⟩
      | .ok boxes =>
        let cat_detections :=
          (boxes.filter (fun b => b.cls = cat_class_id)).map toDetection
        match best_by_conf cat_detections with
        | none => ⟨false, 0, none, some quality, none, some ERR_NO_CAT⟩
        | some best_cat =>
          ⟨true, round2 best_cat.confidence, some best_cat.bbox, some quality,
            some cat_detections.length, none⟩

/-- The post-detection branch of the `/vision/analyze-cat` endpoint
(`vision.py`): if `is_cat` is falsy it returns the no-cat message at
once; only otherwise does it read `bounding_box` and invoke the analysis
stage (posture, metrics, weight, size all live inside `analyze_cat`). -/
def vision_after_detect (d : DetectResult)
    (analyze : BBoxXYWH → AnalysisResult) : Option AnalysisResult :=
  if d.is_cat = false then none
  else d.bounding_box.map analyze

/-! ## Helper lemmas -/

lemma round1_eval {x q : ℚ} (n : ℤ) (hq : (n : ℚ) / 10 = q)
    (h1 : (n : ℚ) ≤ 10 * x + 1/2) (h2 : 10 * x + 1/2 < (n : ℚ) + 1) :
    round1 x = q := by
  unfold round1
  rw [round_eq, Int.floor_eq_iff.mpr ⟨h1, by linarith⟩, hq]

lemma round1_mono {x y : ℚ} (h : x ≤ y) : round1 x ≤ round1 y := by
  unfold round1
  have hr : round (10 * x) ≤ round (10 * y) := by
    rw [round_eq, round_eq]
    exact Int.floor_le_floor (by linarith)
  have hc : ((round (10 * x) : ℤ) : ℚ) ≤ ((round (10 * y) : ℤ) : ℚ) := by
    exact_mod_cast hr
  linarith

lemma round1_zero : round1 0 = 0 := by
  unfold round1
  norm_num

lemma round1_nonneg {x : ℚ} (h : 0 ≤ x) : 0 ≤ round1 x := by
  have := round1_mono h
  rw [round1_zero] at this
  exact this

lemma estimate_posture_cases (w h : ℚ) :
    estimate_posture w h = ("lying", 0.85) ∨ estimate_posture w h = ("sitting", 0.92) ∨
      estimate_posture w h = ("standing", 1.0) := by
  simp only [estimate_posture]
  split_ifs <;> simp

lemma posture_factor_nonneg (w h : ℚ) : 0 ≤ (estimate_posture w h).2 := by
  rcases estimate_posture_cases w h with hc | hc | hc <;> rw [hc] <;> norm_num

lemma posture_factor_eq_of_label {wa ha wb hb : ℚ}
    (h : (estimate_posture wa ha).1 = (estimate_posture wb hb).1) :
    (estimate_posture wa ha).2 = (estimate_posture wb hb).2 := by
  rcases estimate_posture_cases wa ha with e1 | e1 | e1 <;>
    rcases estimate_posture_cases wb hb with e2 | e2 | e2 <;>
      rw [e1, e2] at h ⊢ <;> simp_all

/-- The chest formula of `body_metrics_core`, read off the definition. -/
lemma body_metrics_core_chest (w h : ℤ) :
    (body_metrics_core w h).chest_cm =
      round1 (mathPi * ((w : ℚ) *
        (25 / max ((h : ℚ) * torso_ratio_of (estimate_posture (w : ℚ) (h : ℚ)).1) 1)) * 0.6 *
        (estimate_posture (w : ℚ) (h : ℚ)).2) := rfl

/-- The body-length formula of `body_metrics_core`, read off the definition. -/
lemma body_metrics_core_length (w h : ℤ) :
    (body_metrics_core w h).body_length_cm =
      round1 ((w : ℚ) *
        (25 / max ((h : ℚ) * torso_ratio_of (estimate_posture (w : ℚ) (h : ℚ)).1) 1) *
        (if (estimate_posture (w : ℚ) (h : ℚ)).1 = "lying" then 1.0 else 0.9)) := rfl

/-- The neck formula of `body_metrics_core`, read off the definition. -/
lemma body_metrics_core_neck (w h : ℤ) :
    (body_metrics_core w h).neck_cm = round1 ((body_metrics_core w h).chest_cm * 0.62) := rfl

lemma body_metrics_core_posture (w h : ℤ) :
    (body_metrics_core w h).posture = (estimate_posture (w : ℚ) (h : ℚ)).1 := rfl

lemma estimate_body_metrics_eq_core (x1 y1 x2 y2 : ℤ) :
    estimate_body_metrics x1 y1 x2 y2 = body_metrics_core (max (x2 - x1) 1) (max (y2 - y1) 1) := rfl

/-! ## Claim theorems: analysis side -/

/-- Claim C4: posture classification is a pure total function of the
aspect ratio `r = w / max(h, 1)`: `r > 1.4` gives lying with factor
0.85, `r < 0.9` gives sitting with factor 0.92, otherwise standing with
factor 1.0; ratio 2.0 gives lying, ratio 0.5 gives sitting, ratio 1.0
gives standing. -/
theorem C4_posture_rule :
    (∀ w h : ℚ, estimate_posture w h =
      (if w / max h 1 > 1.4 then ("lying", (0.85 : ℚ))
       else if w / max h 1 < 0.9 then ("sitting", 0.92)
       else ("standing", 1.0))) ∧
    estimate_posture 2 1 = ("lying", 0.85) ∧
    estimate_posture 1 2 = ("sitting", 0.92) ∧
    estimate_posture 1 1 = ("standing", 1.0) := by
  refine ⟨fun w h => rfl, ?_, ?_, ?_⟩ <;>
    · simp only [estimate_posture]
      norm_num [max_def]

/-- The size bands of spec §4.6, smallest to largest: weight threshold,
chest threshold, category. -/
def size_bands : List (ℚ × ℚ × String) :=
  [(2.5, 24, "XS"), (4, 32, "S"), (6, 38, "M"), (8.5, 45, "L")]

/-- First-match evaluation of the ordered bands with OR semantics;
`"XL"` when no band matches. -/
def first_band : List (ℚ × ℚ × String) → ℚ → ℚ → String
  | [], _, _ => "XL"
  | b :: rest, weight, chest =>
      if weight < b.1 ∨ chest < b.2.1 then b.2.2 else first_band rest weight chest

/-- Claim C2: `determine_size` evaluates the bands in order from
smallest to largest with OR semantics and returns the first match;
weight 3.9 with chest 40 gives "S", and weight 1.0 with chest 50 gives
"XS". -/
theorem C2_size_first_match :
    (∀ weight chest : ℚ, determine_size weight chest = first_band size_bands weight chest) ∧
    determine_size 3.9 40 = "S" ∧
    determine_size 1.0 50 = "XS" := by
  refine ⟨fun weight chest => ?_, ?_, ?_⟩
  · simp only [determine_size, size_bands, first_band]
  · norm_num [determine_size]
  · norm_num [determine_size]

/-- The breed-modifier table of spec §4.5, as an association list. -/
def spec_breed_table : List (String × ℚ) :=
  [("maine_coon", 1.15), ("ragdoll", 1.10), ("british_shorthair", 1.05),
   ("siamese", 0.95), ("unknown", 1.0)]

/-- First-match association lookup with a default, used for the
spec-side modifier table. -/
def assocD : List (String × ℚ) → String → ℚ → ℚ
  | [], _, d => d
  | p :: rest, k, d => if k = p.1 then p.2 else assocD rest k d

/-- Spec-side modifier lookup: table value, defaulting to 1.0 for keys
not in the table. -/
def spec_breed_modifier (breed : String) : ℚ :=
  assocD spec_breed_table breed 1.0

lemma breed_modifier_agrees (breed : String) :
    (BREED_MODIFIER breed).getD 1.0 = spec_breed_modifier breed := by
  simp only [BREED_MODIFIER, spec_breed_modifier, spec_breed_table, assocD]
  split_ifs <;> simp

/-- Claim C3: `estimate_weight` returns
`round((chest² * body_length / 3000) * modifier, 1)` with the modifier
looked up in the fixed breed table, any absent key falling back to 1.0;
chest 44.6, body length 38.2, breed "persian" gives
`round(44.6² * 38.2 / 3000, 1)`. -/
theorem C3_weight_formula :
    (∀ (chest_cm body_length_cm : ℚ) (breed : String),
      estimate_weight chest_cm body_length_cm breed =
        round1 ((chest_cm ^ 2 * body_length_cm) / 3000 * spec_breed_modifier breed)) ∧
    (∀ breed : String, breed ∉ spec_breed_table.map Prod.fst → spec_breed_modifier breed = 1.0) ∧
    estimate_weight 44.6 38.2 "persian" = round1 ((44.6 : ℚ) ^ 2 * 38.2 / 3000) := by
  refine ⟨fun c b breed => ?_, fun breed h => ?_, ?_⟩
  · simp only [estimate_weight, breed_modifier_agrees]
  · simp only [spec_breed_table, List.map, List.mem_cons, List.not_mem_nil, or_false] at h
    push_neg at h
    obtain ⟨n1, n2, n3, n4, n5⟩ := h
    simp only [spec_breed_modifier, spec_breed_table, assocD]
    rw [if_neg n1, if_neg n2, if_neg n3, if_neg n4, if_neg n5]
  · have hb : BREED_MODIFIER "persian" = none := rfl
    simp only [estimate_weight, hb, Option.getD_none]
    norm_num

/-- Claim C10: `analyze_cat` hard-codes `breed = "unknown"`, so every
breed field of every result is "unknown" and the modifier applied to the
weight is 1.0: the weight is `round(chest² * body_length / 3000, 1)`
independently of any caller-supplied breed. -/
theorem C10_breed_fixed :
    ∀ (image_path : String) (x1 y1 x2 y2 : ℤ) (cat_color : Option String),
      (analyze_cat image_path x1 y1 x2 y2 cat_color).breed = "unknown" ∧
      (analyze_cat image_path x1 y1 x2 y2 cat_color).weight =
        round1 (((estimate_body_metrics x1 y1 x2 y2).chest_cm ^ 2 *
          (estimate_body_metrics x1 y1 x2 y2).body_length_cm) / 3000) := by
  intro p x1 y1 x2 y2 c
  refine ⟨rfl, ?_⟩
  show estimate_weight _ _ "unknown" = _
  have hb : BREED_MODIFIER "unknown" = some 1.0 := rfl
  simp only [estimate_weight, hb, Option.getD_some]
  norm_num

/-- Spec-side torso-ratio table of claim C1: 0.55 for lying, 0.60 for
sitting, 0.65 for standing. -/
def spec_torso_r (posture : String) : ℚ :=
  if posture = "lying" then 0.55
  else if posture = "sitting" then 0.60
  else 0.65

/-- Spec-side unit conversion of claim C1:
`pixel_to_cm = 25 / max(h * torso_ratio, 1)`. -/
def spec_pixel_to_cm (h : ℤ) (t : ℚ) : ℚ := 25 / max ((h : ℚ) * t) 1

/-- Claim C1: for every bounding box, with `w`/`h` the clamped width and
height, posture and factor from `estimate_posture`, torso ratio 0.55 /
0.60 / 0.65 for lying / sitting / standing, and
`pixel_to_cm = 25 / max(h * torso_ratio, 1)`, the estimator returns
`body_length_cm = round(w * pixel_to_cm * (1.0 if lying else 0.9), 1)`
and `chest_cm = round(pi * (w * pixel_to_cm) * 0.6 * factor, 1)` (with
`pi` the value of `math.pi`). -/
theorem C1_metrics_formula :
    ∀ x1 y1 x2 y2 : ℤ,
      (estimate_body_metrics x1 y1 x2 y2).body_length_cm =
        round1 (((max (x2 - x1) 1 : ℤ) : ℚ) *
          spec_pixel_to_cm (max (y2 - y1) 1)
            (spec_torso_r (estimate_posture ((max (x2 - x1) 1 : ℤ) : ℚ)
              ((max (y2 - y1) 1 : ℤ) : ℚ)).1) *
          (if (estimate_posture ((max (x2 - x1) 1 : ℤ) : ℚ)
              ((max (y2 - y1) 1 : ℤ) : ℚ)).1 = "lying" then 1.0 else 0.9)) ∧
      (estimate_body_metrics x1 y1 x2 y2).chest_cm =
        round1 (mathPi * (((max (x2 - x1) 1 : ℤ) : ℚ) *
          spec_pixel_to_cm (max (y2 - y1) 1)
            (spec_torso_r (estimate_posture ((max (x2 - x1) 1 : ℤ) : ℚ)
              ((max (y2 - y1) 1 : ℤ) : ℚ)).1)) * 0.6 *
          (estimate_posture ((max (x2 - x1) 1 : ℤ) : ℚ)
            ((max (y2 - y1) 1 : ℤ) : ℚ)).2) :=
  fun _ _ _ _ => ⟨rfl, rfl⟩

/-- Claim C8 counterexample: the valid bounding box (0, 0, 1, 2000) has
`w = 1`, `h = 2000` (sitting posture), and both `body_length_cm` and
`chest_cm` round to 0.0 — not strictly positive as claimed. -/
theorem C8_counterexample :
    (estimate_body_metrics 0 0 1 2000).body_length_cm = 0 ∧
    (estimate_body_metrics 0 0 1 2000).chest_cm = 0 := by
  have hcore : estimate_body_metrics 0 0 1 2000 = body_metrics_core 1 2000 := by
    rw [estimate_body_metrics_eq_core]
    norm_num
  have hp : estimate_posture ((1 : ℤ) : ℚ) ((2000 : ℤ) : ℚ) = ("sitting", 0.92) := by
    simp only [estimate_posture]
    norm_num [max_def]
  have hne : ¬ ("sitting" = "lying") := by decide
  have heq : "sitting" = "sitting" := rfl
  constructor
  · rw [hcore, body_metrics_core_length, hp]
    simp only [torso_ratio_of, if_neg hne, if_pos heq]
    exact round1_eval 0 (by norm_num) (by norm_num [max_def]) (by norm_num [max_def])
  · rw [hcore, body_metrics_core_chest, hp]
    simp only [torso_ratio_of, if_neg hne, if_pos heq]
    exact round1_eval 0 (by norm_num) (by norm_num [max_def, mathPi]) (by norm_num [max_def, mathPi])

/-- Claim C8 amended: for every bounding box the outputs of the estimator
satisfy `body_length_cm ≥ 0`, `chest_cm ≥ 0` (strict positivity fails:
extreme aspect ratios can round to 0.0), and
`neck_cm = round(chest_cm * 0.62, 1)` exactly, where `chest_cm` is the
already-rounded chest value. -/
theorem C8_amended :
    ∀ x1 y1 x2 y2 : ℤ,
      0 ≤ (estimate_body_metrics x1 y1 x2 y2).body_length_cm ∧
      0 ≤ (estimate_body_metrics x1 y1 x2 y2).chest_cm ∧
      (estimate_body_metrics x1 y1 x2 y2).neck_cm =
        round1 ((estimate_body_metrics x1 y1 x2 y2).chest_cm * 0.62) := by
  intro x1 y1 x2 y2
  rw [estimate_body_metrics_eq_core]
  set w : ℤ := max (x2 - x1) 1 with hw
  set h : ℤ := max (y2 - y1) 1 with hh
  have hwq : (0 : ℚ) ≤ (w : ℚ) := by
    have : (0 : ℤ) ≤ w := le_trans zero_le_one (le_max_right _ _)
    exact_mod_cast this
  have hp2c : (0 : ℚ) ≤
      25 / max ((h : ℚ) * torso_ratio_of (estimate_posture (w : ℚ) (h : ℚ)).1) 1 :=
    div_nonneg (by norm_num) (le_trans zero_le_one (le_max_right _ _))
  refine ⟨?_, ?_, body_metrics_core_neck w h⟩
  · rw [body_metrics_core_length]
    refine round1_nonneg (mul_nonneg (mul_nonneg hwq hp2c) ?_)
    split_ifs <;> norm_num
  · rw [body_metrics_core_chest]
    refine round1_nonneg (mul_nonneg (mul_nonneg ?_ (by norm_num)) ?_)
    · exact mul_nonneg (by norm_num [mathPi]) (mul_nonneg hwq hp2c)
    · exact posture_factor_nonneg _ _

/-- Claim C7 counterexample: the boxes (0,0,15,9) and (0,0,15,10) are
both classified lying, the second has strictly larger area
(135 < 150), yet its `chest_cm` (109.2 < 121.4) and `body_length_cm`
(68.2 < 75.8) are strictly smaller, so increasing area does not
strictly increase either output. -/
theorem C7_counterexample :
    (estimate_body_metrics 0 0 15 9).posture = (estimate_body_metrics 0 0 15 10).posture ∧
    (15 * 9 : ℤ) < 15 * 10 ∧
    (estimate_body_metrics 0 0 15 10).chest_cm < (estimate_body_metrics 0 0 15 9).chest_cm ∧
    (estimate_body_metrics 0 0 15 10).body_length_cm <
      (estimate_body_metrics 0 0 15 9).body_length_cm := by
  have hcore9 : estimate_body_metrics 0 0 15 9 = body_metrics_core 15 9 := by
    rw [estimate_body_metrics_eq_core]
    norm_num
  have hcore10 : estimate_body_metrics 0 0 15 10 = body_metrics_core 15 10 := by
    rw [estimate_body_metrics_eq_core]
    norm_num
  have hp9 : estimate_posture ((15 : ℤ) : ℚ) ((9 : ℤ) : ℚ) = ("lying", 0.85) := by
    simp only [estimate_posture]
    norm_num [max_def]
  have hp10 : estimate_posture ((15 : ℤ) : ℚ) ((10 : ℤ) : ℚ) = ("lying", 0.85) := by
    simp only [estimate_posture]
    norm_num [max_def]
  have hl : ("lying" : String) = "lying" := rfl
  have chest9 : (estimate_body_metrics 0 0 15 9).chest_cm = 1214 / 10 := by
    rw [hcore9, body_metrics_core_chest, hp9]
    simp only [torso_ratio_of, if_pos hl]
    exact round1_eval 1214 (by norm_num) (by norm_num [max_def, mathPi])
      (by norm_num [max_def, mathPi])
  have chest10 : (estimate_body_metrics 0 0 15 10).chest_cm = 1092 / 10 := by
    rw [hcore10, body_metrics_core_chest, hp10]
    simp only [torso_ratio_of, if_pos hl]
    exact round1_eval 1092 (by norm_num) (by norm_num [max_def, mathPi])
      (by norm_num [max_def, mathPi])
  have len9 : (estimate_body_metrics 0 0 15 9).body_length_cm = 758 / 10 := by
    rw [hcore9, body_metrics_core_length, hp9]
    simp only [torso_ratio_of, if_pos hl]
    exact round1_eval 758 (by norm_num) (by norm_num [max_def]) (by norm_num [max_def])
  have len10 : (estimate_body_metrics 0 0 15 10).body_length_cm = 682 / 10 := by
    rw [hcore10, body_metrics_core_length, hp10]
    simp only [torso_ratio_of, if_pos hl]
    exact round1_eval 682 (by norm_num) (by norm_num [max_def]) (by norm_num [max_def])
  refine ⟨?_, by norm_num, ?_, ?_⟩
  · rw [hcore9, hcore10, body_metrics_core_posture, body_metrics_core_posture, hp9, hp10]
  · rw [chest9, chest10]
    norm_num
  · rw [len9, len10]
    norm_num

/-- Claim C7 amended: holding the classified posture and the box height
fixed, strictly increasing the bounding-box width (hence the area)
weakly increases `chest_cm` and `body_length_cm`; strictness is lost to
the 1-decimal rounding, and increasing area by growing the height can
strictly decrease both outputs. -/
theorem C7_amended (w w2 h : ℤ) (hw : 1 ≤ w) (hh : 1 ≤ h) (hlt : w < w2)
    (hpost : (estimate_body_metrics 0 0 w h).posture =
      (estimate_body_metrics 0 0 w2 h).posture) :
    (estimate_body_metrics 0 0 w h).chest_cm ≤ (estimate_body_metrics 0 0 w2 h).chest_cm ∧
    (estimate_body_metrics 0 0 w h).body_length_cm ≤
      (estimate_body_metrics 0 0 w2 h).body_length_cm := by
  have hw2 : 1 ≤ w2 := le_of_lt (lt_of_le_of_lt hw hlt)
  have hmw : (max (w - 0) 1 : ℤ) = w := by
    rw [sub_zero]
    exact max_eq_left hw
  have hmw2 : (max (w2 - 0) 1 : ℤ) = w2 := by
    rw [sub_zero]
    exact max_eq_left hw2
  have hmh : (max (h - 0) 1 : ℤ) = h := by
    rw [sub_zero]
    exact max_eq_left hh
  rw [estimate_body_metrics_eq_core, hmw, hmh] at hpost ⊢
  rw [estimate_body_metrics_eq_core, hmw2, hmh] at hpost ⊢
  rw [body_metrics_core_posture, body_metrics_core_posture] at hpost
  have hpf := posture_factor_eq_of_label hpost
  have hwcast : ((w : ℚ)) ≤ ((w2 : ℚ)) := by exact_mod_cast hlt.le
  have hp2c : (0 : ℚ) ≤
      25 / max ((h : ℚ) * torso_ratio_of (estimate_posture (w2 : ℚ) (h : ℚ)).1) 1 :=
    div_nonneg (by norm_num) (le_trans zero_le_one (le_max_right _ _))
  constructor
  · rw [body_metrics_core_chest, body_metrics_core_chest, hpost, hpf]
    refine round1_mono ?_
    have hf := posture_factor_nonneg ((w2 : ℚ)) ((h : ℚ))
    have hpi : (0 : ℚ) ≤ mathPi := by norm_num [mathPi]
    gcongr
  · rw [body_metrics_core_length, body_metrics_core_length, hpost]
    refine round1_mono ?_
    have hc : (0 : ℚ) ≤
        (if (estimate_posture (w2 : ℚ) (h : ℚ)).1 = "lying" then (1.0 : ℚ) else 0.9) := by
      split_ifs <;> norm_num
    gcongr

/-- Claim C3 witness: "persian" is not a key of the breed table, and
the modifier falls back to 1.0 there. -/
theorem C3_witness :
    "persian" ∉ spec_breed_table.map Prod.fst ∧ spec_breed_modifier "persian" = 1.0 := by
  have hmem : "persian" ∉ spec_breed_table.map Prod.fst := by
    simp only [spec_breed_table, List.map, List.mem_cons, List.not_mem_nil, or_false]
    push_neg
    exact ⟨by decide, by decide, by decide, by decide, by decide⟩
  exact ⟨hmem, C3_weight_formula.2.1 "persian" hmem⟩

/-- Claim C7 (amended) witness: widening a lying 15×10 box to 16×10
keeps the posture and does not decrease chest or body length. -/
theorem C7_witness :
    (1 : ℤ) ≤ 15 ∧ (1 : ℤ) ≤ 10 ∧ (15 : ℤ) < 16 ∧
    (estimate_body_metrics 0 0 15 10).posture = (estimate_body_metrics 0 0 16 10).posture ∧
    (estimate_body_metrics 0 0 15 10).chest_cm ≤ (estimate_body_metrics 0 0 16 10).chest_cm ∧
    (estimate_body_metrics 0 0 15 10).body_length_cm ≤
      (estimate_body_metrics 0 0 16 10).body_length_cm := by
  have hc15 : estimate_body_metrics 0 0 15 10 = body_metrics_core 15 10 := by
    rw [estimate_body_metrics_eq_core]
    norm_num
  have hc16 : estimate_body_metrics 0 0 16 10 = body_metrics_core 16 10 := by
    rw [estimate_body_metrics_eq_core]
    norm_num
  have hp15 : estimate_posture ((15 : ℤ) : ℚ) ((10 : ℤ) : ℚ) = ("lying", 0.85) := by
    simp only [estimate_posture]
    norm_num [max_def]
  have hp16 : estimate_posture ((16 : ℤ) : ℚ) ((10 : ℤ) : ℚ) = ("lying", 0.85) := by
    simp only [estimate_posture]
    norm_num [max_def]
  have hpost : (estimate_body_metrics 0 0 15 10).posture =
      (estimate_body_metrics 0 0 16 10).posture := by
    rw [hc15, hc16, body_metrics_core_posture, body_metrics_core_posture, hp15, hp16]
  have h := C7_amended 15 16 10 (by norm_num) (by norm_num) (by norm_num) hpost
  exact ⟨by norm_num, by norm_num, by norm_num, hpost, h.1, h.2⟩

/-! ## Claim theorems: detector side -/

/-- Claim C9 (spec-modelled quality gate): `is_valid` is false iff one
of the three thresholds (width and height each at least 100 px,
sharpness at least 50, brightness within [30, 225]) is violated; the
reason string is set by the first failing check in that order; and when
the gate fails, `detect_cat` returns a non-cat result that is the same
whatever the model does — the detector model is never invoked. -/
theorem C9_quality_gate :
    (∀ img : ImageStats,
      ((check_image_quality img).is_valid = false ↔
        (img.width < 100 ∨ img.height < 100 ∨ img.sharpness < 50 ∨
          img.brightness < 30 ∨ img.brightness > 225))) ∧
    (∀ img : ImageStats,
      (img.width < 100 ∨ img.height < 100 →
        (check_image_quality img).reason = some "image too small") ∧
      (¬(img.width < 100 ∨ img.height < 100) → img.sharpness < 50 →
        (check_image_quality img).reason = some "image too blurry") ∧
      (¬(img.width < 100 ∨ img.height < 100) → ¬(img.sharpness < 50) →
        (img.brightness < 30 ∨ img.brightness > 225) →
        (check_image_quality img).reason = some "unsuitable brightness")) ∧
    (∀ (img : ImageStats) (model model2 : ImageStats → ModelOutcome),
      (check_image_quality img).is_valid = false →
        (detect_cat (some img) model).is_cat = false ∧
        detect_cat (some img) model = detect_cat (some img) model2) := by
  refine ⟨fun img => ?_, fun img => ⟨?_, ?_, ?_⟩, fun img model model2 hq => ?_⟩
  · simp only [check_image_quality]
    split_ifs with h1 h2 h3 <;> simp_all <;> push_neg at * <;> tauto
  · intro h
    simp only [check_image_quality, if_pos h]
  · intro h1 h2
    simp only [check_image_quality, if_neg h1, if_pos h2]
  · intro h1 h2 h3
    simp only [check_image_quality, if_neg h1, if_neg h2, if_pos h3]
  · constructor
    · simp only [detect_cat]
      rw [if_pos hq]
    · simp only [detect_cat]
      rw [if_pos hq, if_pos hq]

/-- Claim C9 witness: a 50-px-wide image fails the gate with reason
"image too small" and the detector reports no cat without consulting
the model. -/
theorem C9_witness :
    (check_image_quality ⟨50, 200, 100, 100⟩).is_valid = false ∧
    (check_image_quality ⟨50, 200, 100, 100⟩).reason = some "image too small" ∧
    (detect_cat (some ⟨50, 200, 100, 100⟩) (fun _ => ModelOutcome.ok [])).is_cat = false := by
  obtain ⟨h1, h2, h3⟩ := C9_quality_gate
  have hv : (check_image_quality ⟨50, 200, 100, 100⟩).is_valid = false :=
    (h1 _).mpr (Or.inl (by norm_num))
  exact ⟨hv, (h2 _).1 (Or.inl (by norm_num)),
    (h3 _ (fun _ => ModelOutcome.ok []) (fun _ => ModelOutcome.ok []) hv).1⟩

/-- Claim C6: when zero boxes of the cat class survive the category
filter, `detect_cat` returns `is_cat = false`, `confidence = 0.0`,
no bounding box, and the post-detection branch of the endpoint never invokes
the analysis stage; moreover, for every input the `bounding_box` field
is present iff `is_cat` is true. -/
theorem C6_no_detection :
    (∀ (img : ImageStats) (model : ImageStats → ModelOutcome) (boxes : List RawBox),
      (check_image_quality img).is_valid = true →
      model img = ModelOutcome.ok boxes →
      boxes.filter (fun b => b.cls = cat_class_id) = [] →
      detect_cat (some img) model =
        ⟨false, 0, none, some (check_image_quality img), none, some ERR_NO_CAT⟩ ∧
      (∀ analyze : BBoxXYWH → AnalysisResult,
        vision_after_detect (detect_cat (some img) model) analyze = none)) ∧
    (∀ (decoded : Option ImageStats) (model : ImageStats → ModelOutcome),
      (detect_cat decoded model).bounding_box.isSome = (detect_cat decoded model).is_cat) := by
  constructor
  · intro img model boxes hq hm hf
    have hd : detect_cat (some img) model =
        ⟨false, 0, none, some (check_image_quality img), none, some ERR_NO_CAT⟩ := by
      simp only [detect_cat]
      rw [if_neg (by simp [hq])]
      simp only [hm, hf, List.map_nil, best_by_conf]
    exact ⟨hd, fun analyze => by rw [hd]; rfl⟩
  · intro decoded model
    match decoded with
    | none => rfl
    | some img =>
      simp only [detect_cat]
      by_cases hq : (check_image_quality img).is_valid = false
      · rw [if_pos hq]
        rfl
      · rw [if_neg hq]
        cases hmo : model img with
        | raises e => rfl
        | ok boxes =>
          cases hb : best_by_conf ((boxes.filter (fun b => b.cls = cat_class_id)).map toDetection) with
          | none =>
            simp only [hb]
            rfl
          | some d =>
            simp only [hb]
            rfl

/-- Claim C6 witness: a valid image whose only detection is class 3
(not the cat class) yields the no-cat result and the analysis stage is
never invoked. -/
theorem C6_witness :
    detect_cat (some ⟨640, 480, 100, 100⟩)
        (fun _ => ModelOutcome.ok [⟨3, 0.9, 0, 0, 10, 10⟩]) =
      ⟨false, 0, none, some (check_image_quality ⟨640, 480, 100, 100⟩), none,
        some ERR_NO_CAT⟩ ∧
    vision_after_detect
      (detect_cat (some ⟨640, 480, 100, 100⟩)
        (fun _ => ModelOutcome.ok [⟨3, 0.9, 0, 0, 10, 10⟩]))
      (fun b => analyze_cat "" b.x b.y (b.x + b.w) (b.y + b.h) none) = none := by
  have h := (C6_no_detection.1 ⟨640, 480, 100, 100⟩
    (fun _ => ModelOutcome.ok [⟨3, 0.9, 0, 0, 10, 10⟩]) [⟨3, 0.9, 0, 0, 10, 10⟩]
    rfl rfl (by rfl))
  exact ⟨h.1, h.2 _⟩

/-- Claim C5 counterexample: with a quality-passing image and a model
invocation that raises, `detect_cat` catches the exception and returns
`is_cat = false` with `confidence = 0.0` — the same zero-confidence
shape the claim says an inference failure must never take; the
undecodable-image path likewise returns a zero-confidence result. -/
theorem C5_counterexample :
    (detect_cat (some ⟨640, 480, 100, 100⟩)
        (fun _ => ModelOutcome.raises "RuntimeError")).is_cat = false ∧
    (detect_cat (some ⟨640, 480, 100, 100⟩)
        (fun _ => ModelOutcome.raises "RuntimeError")).confidence = 0 ∧
    (detect_cat none (fun _ => ModelOutcome.raises "RuntimeError")).is_cat = false ∧
    (detect_cat none (fun _ => ModelOutcome.raises "RuntimeError")).confidence = 0 :=
  ⟨rfl, rfl, rfl, rfl⟩

/-- Claim C5 amended: a model exception is caught and returned (not
propagated) as an `is_cat = false`, `confidence = 0.0` result whose
error is "เกิดข้อผิดพลาด: <msg>" and which carries no quality report; an
undecodable image returns the same shape with error
"ไม่สามารถโหลดภาพได้"; both remain distinguishable from the NoDetection
outcome, which has error "ไม่พบแมวในภาพ …" and carries a quality
report. -/
theorem C5_amended :
    (∀ (img : ImageStats) (model : ImageStats → ModelOutcome) (e : String),
      (check_image_quality img).is_valid = true →
      model img = ModelOutcome.raises e →
      detect_cat (some img) model =
        ⟨false, 0, none, none, none, some ("เกิดข้อผิดพลาด: " ++ e)⟩) ∧
    (∀ model : ImageStats → ModelOutcome,
      detect_cat none model = ⟨false, 0, none, none, none, some ERR_LOAD⟩) ∧
    ERR_LOAD ≠ ERR_NO_CAT ∧
    (∀ (img : ImageStats) (model : ImageStats → ModelOutcome) (boxes : List RawBox),
      (check_image_quality img).is_valid = true →
      model img = ModelOutcome.ok boxes →
      boxes.filter (fun b => b.cls = cat_class_id) = [] →
      (detect_cat (some img) model).quality_check = some (check_image_quality img) ∧
      (detect_cat (some img) model).error = some ERR_NO_CAT) := by
  refine ⟨fun img model e hq hm => ?_, fun model => rfl, by decide,
    fun img model boxes hq hm hf => ?_⟩
  · simp only [detect_cat]
    rw [if_neg (by simp [hq])]
    simp only [hm]
  · have hd : detect_cat (some img) model =
        ⟨false, 0, none, some (check_image_quality img), none, some ERR_NO_CAT⟩ := by
      simp only [detect_cat]
      rw [if_neg (by simp [hq])]
      simp only [hm, hf, List.map_nil, best_by_conf]
    rw [hd]
    exact ⟨rfl, rfl⟩

/-- Claim C5 witness: concrete instances of the amended statement — a
raising model on a valid image, and an undecodable image. -/
theorem C5_witness :
    detect_cat (some ⟨640, 480, 100, 100⟩) (fun _ => ModelOutcome.raises "RuntimeError") =
      ⟨false, 0, none, none, none, some ("เกิดข้อผิดพลาด: " ++ "RuntimeError")⟩ ∧
    detect_cat none (fun _ => ModelOutcome.raises "RuntimeError") =
      ⟨false, 0, none, none, none, some ERR_LOAD⟩ := by
  obtain ⟨ha, hb, _, _⟩ := C5_amended
  exact ⟨ha ⟨640, 480, 100, 100⟩ (fun _ => ModelOutcome.raises "RuntimeError")
    "RuntimeError" rfl rfl, hb _⟩

end CatShop
